import Mathlib

/-!
Shallow embedding of the unifi-ddns Cloudflare Worker (`src/index.ts`).

The worker handles one HTTP request at a time: it validates the query
parameters and the Basic-auth header against per-domain configuration,
then talks to the Cloudflare API (token verification, zone listing, DNS
record listing/update, Zero-Trust gateway location listing/update) and
maps the outcome to an HTTP response.

The remote Cloudflare service is a black box: its list results are part
of the environment (`CloudflareEnv`), and the mutating calls the worker
issues are recorded as effect values (`DnsUpdateCall`,
`GatewayUpdateCall`) so that theorems can talk about which remote
mutations happen.
-/

namespace UnifiDdns

/-- HTTP response as produced by the worker: body text and status code. -/
structure HttpResponse where
  body : String
  status : Nat
  deriving DecidableEq, Repr

/-- `class HttpError extends Error`: a classified error carrying a status code. -/
structure HttpError where
  statusCode : Nat
  message : String
  deriving DecidableEq, Repr

/-- A thrown JavaScript exception: either a classified `HttpError` or any
other exception (e.g. `atob` throwing `InvalidCharacterError`). -/
inductive JsError where
  | http : HttpError → JsError
  | other : String → JsError
  deriving DecidableEq, Repr

/-- `successResponse()` in the source. -/
def successResponse : HttpResponse := ⟨"OK", 200⟩

/-- The top-level catch block: an `HttpError` is returned verbatim
(message as body, carried status); any other exception becomes a
generic 500. -/
def errorResponse : JsError → HttpResponse
  | .http e => ⟨e.message, e.statusCode⟩
  | .other _ => ⟨"Internal Server Error", 500⟩

/-- `enum GateUpdateType { DefaultOnly = 'Default', All = 'All' }`. -/
inductive GateUpdateType where
  | DefaultOnly
  | All
  deriving DecidableEq, Repr

/-- DNS record type of an addressable record (`'A' | 'AAAA'`). -/
inductive RecordType where
  | A
  | AAAA
  deriving DecidableEq, Repr

/-- The `record` object built by `validateChangeRequest`
(type `AddressableRecord`): `name` is `undefined` when no `hostname`
parameter was supplied. -/
structure AddressableRecord where
  content : String
  name : Option String
  type : RecordType
  ttl : Nat
  deriving DecidableEq, Repr

/-- Incoming HTTP request: query parameters and headers, in order.
`URLSearchParams.get` returns the first value for a key.  All header
reads in the source use fixed literal names, so an exact-key lookup
models `Headers.get` faithfully for them. -/
structure Request where
  params : List (String × String)
  headers : List (String × String)
  deriving DecidableEq, Repr

/-- First value bound to `k`, or `none` (models `URLSearchParams.get`,
which returns `null` when absent). -/
def paramsGet (ps : List (String × String)) (k : String) : Option String :=
  (ps.find? (fun p => p.1 == k)).map (fun p => p.2)

/-- `URLSearchParams.has`. -/
def paramsHas (ps : List (String × String)) (k : String) : Bool :=
  (paramsGet ps k).isSome

/-- `Headers.get` for the fixed header names the worker reads. -/
def headersGet (hs : List (String × String)) (k : String) : Option String :=
  (hs.find? (fun p => p.1 == k)).map (fun p => p.2)

/-- The worker environment (`env`): bindings such as
`SK_CLIENT_API_KEY`.  `name in env` is membership, `env[name]` the bound
value. -/
def envGet (env : List (String × String)) (k : String) : Option String :=
  (env.find? (fun p => p.1 == k)).map (fun p => p.2)

/-- JavaScript truthiness of a possibly-undefined string: `undefined`
and `""` are falsy. -/
def jsTruthyStr (o : Option String) : Bool := o.getD "" ≠ ""

/-- JavaScript truthiness of a possibly-undefined boolean. -/
def jsTruthyBool (o : Option Bool) : Bool := o.getD false

/-! ### `atob`: forgiving-base64 decode

`atob` implements the HTML forgiving-base64 decode: strip ASCII
whitespace, strip up to two trailing `=` when the length is a multiple
of four, fail (`none`, modelling the thrown `InvalidCharacterError`)
when the remaining length is `1 mod 4` or a character is outside the
base64 alphabet, otherwise decode sextets to bytes. -/

/-- Value of a base64 alphabet character. -/
def b64Val (c : Char) : Option Nat :=
  if 'A' ≤ c ∧ c ≤ 'Z' then some (c.toNat - 'A'.toNat)
  else if 'a' ≤ c ∧ c ≤ 'z' then some (c.toNat - 'a'.toNat + 26)
  else if '0' ≤ c ∧ c ≤ '9' then some (c.toNat - '0'.toNat + 52)
  else if c = '+' then some 62
  else if c = '/' then some 63
  else none

/-- Reassemble 6-bit groups into 8-bit bytes; a trailing group of two
or three sextets yields one or two bytes. -/
def sextetsToBytes : List Nat → List Nat
  | a :: b :: c :: d :: rest =>
    (a * 4 + b / 16) :: ((b % 16) * 16 + c / 4) :: ((c % 4) * 64 + d) :: sextetsToBytes rest
  | [a, b] => [a * 4 + b / 16]
  | [a, b, c] => [a * 4 + b / 16, (b % 16) * 16 + c / 4]
  | _ => []

/-- ASCII whitespace, removed before base64 decoding. -/
def isAsciiWhitespace (c : Char) : Bool :=
  c = ' ' ∨ c = '\t' ∨ c = '\n' ∨ c = Char.ofNat 12 ∨ c = Char.ofNat 13

/-- Drop up to two trailing `=` characters. -/
def stripB64Padding (s : List Char) : List Char :=
  let s1 := if s.getLast? = some '=' then s.dropLast else s
  if s1.getLast? = some '=' then s1.dropLast else s1

/-- `atob(input)`: `none` models the thrown `InvalidCharacterError`. -/
def atob (input : String) : Option String :=
  let cs := (input.toList.filter (fun c => isAsciiWhitespace c = false))
  let cs := if cs.length % 4 = 0 then stripB64Padding cs else cs
  if cs.length % 4 = 1 then none
  else
    match cs.mapM b64Val with
    | none => none
    | some vals => some (String.mk ((sextetsToBytes vals).map Char.ofNat))

/-- `String.prototype.split` on a single-character separator, on the
character list: every separator occurrence splits, empty pieces kept. -/
def splitChars (sep : Char) : List Char → List Char → List (List Char)
  | [], acc => [acc.reverse]
  | c :: cs, acc =>
    if c = sep then acc.reverse :: splitChars sep cs []
    else splitChars sep cs (c :: acc)

/-- `s.includes(c)` for a single character. -/
def jsIncludes (s : String) (c : Char) : Bool :=
  s.toList.contains c

/-- The base64 payload taken from the `Authorization` header:
`authorization.split(' ')` then element 1.  When the header has no
space, JavaScript passes `undefined` to `atob`, which coerces it to the
string `"undefined"`. -/
def authPayload (authorization : String) : String :=
  (((splitChars ' ' authorization.toList []).get? 1).map String.mk).getD "undefined"

/-- The control-character test `/[\0-\x1F\x7F]/.test(decoded)`. -/
def hasCtrlChar (decoded : String) : Bool :=
  decoded.toList.any (fun c => c.toNat ≤ 31 ∨ c.toNat = 127)

/-- `decoded.indexOf(':')` then `substring(0, index)`, the whole string
when there is no colon: the portion before the first `:`. -/
def extractApiKey (decoded : String) : String :=
  String.mk (decoded.toList.takeWhile (fun c => c ≠ ':'))

/-- The `ip` parameter with the legacy fallback:
`params.get('ip') || params.get('myip')` (an empty `ip` value is falsy
and falls through to `myip`); `none` models the `null` result. -/
def ipParam (ps : List (String × String)) : Option String :=
  match paramsGet ps "ip" with
  | some v => if v = "" then paramsGet ps "myip" else some v
  | none => paramsGet ps "myip"

/-- Result of `validateChangeRequest`. -/
structure ValidatedChange where
  cloudflareApiToken : String
  updateHostIp : Bool
  updateGatewayIp : Bool
  gatewayUpdateType : GateUpdateType
  record : AddressableRecord
  deriving DecidableEq, Repr

/-- `validateChangeRequest(request, env)`: checks the `domain`
parameter, the per-domain configuration, the Basic-auth payload and the
`ip` parameter, and builds the validated change tuple. -/
def validateChangeRequest (request : Request) (env : List (String × String)) :
    Except JsError ValidatedChange :=
  match paramsGet request.params "domain" with
  | none => .error (.http ⟨400, "The \"domain\" parameter is required and cannot be empty."⟩)
  | some domain =>
    if (envGet env (domain ++ "_" ++ "CLIENT_API_KEY")).isSome = false then
      .error (.http ⟨401, "Domain '" ++ domain ++ "' not configured for updates."⟩)
    else if (envGet env (domain ++ "_" ++ "CLOUDFLARE_API_TOKEN")).isSome = false then
      .error (.http ⟨401, "Domain '" ++ domain ++ "' not configured for updates."⟩)
    else
      if (headersGet request.headers "Authorization").getD "" = "" then
        .error (.http ⟨401, "Authorization header missing."⟩)
      else
        match atob (authPayload ((headersGet request.headers "Authorization").getD "")) with
        | none => .error (.other "InvalidCharacterError")
        | some decoded =>
          if hasCtrlChar decoded then
            .error (.http ⟨401, "Invalid API key or token."⟩)
          else
            if extractApiKey decoded = "" ∨
                extractApiKey decoded ≠ (envGet env (domain ++ "_" ++ "CLIENT_API_KEY")).getD "" then
              .error (.http ⟨401, "Request failed client authentication"⟩)
            else
              match ipParam request.params with
              | none => .error (.http ⟨422,
                  "The \"ip\" parameter is required and cannot be empty. Specify ip=auto to use the client IP."⟩)
              | some ip0 =>
                match (if ip0 = "auto" then headersGet request.headers "CF-Connecting-IP"
                       else some ip0) with
                | none => .error (.http ⟨500,
                    "Request asked for ip=auto but client IP address cannot be determined."⟩)
                | some ip =>
                  .ok {
                    cloudflareApiToken := (envGet env (domain ++ "_" ++ "CLOUDFLARE_API_TOKEN")).getD ""
                    updateHostIp := paramsHas request.params "hostname"
                    updateGatewayIp := paramsHas request.params "gateway"
                    gatewayUpdateType :=
                      if paramsGet request.params "gateway" = some "All" then .All
                      else .DefaultOnly
                    record := {
                      content := ip
                      name := paramsGet request.params "hostname"
                      type := if jsIncludes ip '.' then .A else .AAAA
                      ttl := 1 } }

/-! ### Cloudflare API environment and recorded effects -/

/-- A DNS record as returned by `cloudflare.dns.records.list`: the
fields the worker reads (`id` may be `undefined`). -/
structure DnsRecord where
  id : Option String
  content : String
  proxied : Option Bool
  comment : Option String
  deriving DecidableEq, Repr

/-- A zone as returned by `cloudflare.zones.list`: its id and
`zone.account?.id`. -/
structure Zone where
  id : String
  accountId : Option String
  deriving DecidableEq, Repr

/-- A Zero-Trust gateway location as returned by
`cloudflare.zeroTrust.gateway.locations.list`: the fields the worker
reads. -/
structure GatewayLocation where
  id : Option String
  name : Option String
  client_default : Option Bool
  deriving DecidableEq, Repr

/-- The remote Cloudflare service, black-boxed: the token status
reported by `user.tokens.verify`, and the results of the (at most one
each) list calls the worker makes in a single request. -/
structure CloudflareEnv where
  tokenStatus : String
  zones : List Zone
  dnsListResult : List DnsRecord
  gatewayLocations : List GatewayLocation
  deriving DecidableEq, Repr

/-- Parameters of the `dns.records.list` call the worker issues. -/
structure DnsListCall where
  zone_id : String
  name : Option String
  type : RecordType
  deriving DecidableEq, Repr

/-- Parameters of the `dns.records.update` call the worker issues. -/
structure DnsUpdateCall where
  recordId : String
  content : String
  zone_id : String
  name : Option String
  type : RecordType
  proxied : Bool
  comment : Option String
  deriving DecidableEq, Repr

/-- Parameters of a `zeroTrust.gateway.locations.update` call. -/
structure GatewayUpdateCall where
  locationId : String
  account_id : String
  name : String
  client_default : Option Bool
  networks : List String
  deriving DecidableEq, Repr

instance {α β : Type} [DecidableEq α] [DecidableEq β] : DecidableEq (Except α β) := fun a b =>
  match a, b with
  | .error x, .error y =>
    if h : x = y then .isTrue (by rw [h]) else .isFalse (by simp [h])
  | .ok x, .ok y =>
    if h : x = y then .isTrue (by rw [h]) else .isFalse (by simp [h])
  | .error _, .ok _ => .isFalse (by simp)
  | .ok _, .error _ => .isFalse (by simp)

/-- Outcome of `updateDNSRecord`: the list call it made, the update
calls it issued, and its return value or thrown error. -/
structure DnsStepResult where
  listCalls : List DnsListCall
  updates : List DnsUpdateCall
  outcome : Except JsError HttpResponse
  deriving DecidableEq, Repr

/-- `updateDNSRecord(cloudflare, zoneId, newRecord)`: list the records
matching the requested name and type; more than one match or no usable
match is a 400 `HttpError`; on the single match, issue an update that
sets `content` to the new IP, reissues the requested name and type, and
passes forward the existing record's `proxied` flag (defaulted to
`false`) and `comment`. -/
def updateDNSRecord (cf : CloudflareEnv) (zoneId : String) (newRecord : AddressableRecord) :
    DnsStepResult :=
  let listCall : DnsListCall := ⟨zoneId, newRecord.name, newRecord.type⟩
  let records := cf.dnsListResult
  if records.length > 1 then
    ⟨[listCall], [], .error (.http ⟨400, "More than one matching record found!"⟩)⟩
  else
    match records with
    | [] =>
      ⟨[listCall], [], .error (.http ⟨400, "No record found! You must first manually create the record."⟩)⟩
    | currentRecord :: _ =>
      match currentRecord.id with
      | none =>
        ⟨[listCall], [], .error (.http ⟨400, "No record found! You must first manually create the record."⟩)⟩
      | some recordId =>
        ⟨[listCall],
         [⟨recordId, newRecord.content, zoneId, newRecord.name, newRecord.type,
           currentRecord.proxied.getD false, currentRecord.comment⟩],
         .ok successResponse⟩

/-- `location.name || 'Default Location'`: an undefined or empty name
falls back to the fixed display name. -/
def locationName (n : Option String) : String :=
  match n with
  | some s => if s = "" then "Default Location" else s
  | none => "Default Location"

/-- The CIDR string computed from the IP:
`ip.includes(':') ? ip/128 : ip/32`. -/
def networkCIDR (ip : String) : String :=
  if jsIncludes ip ':' then ip ++ "/128" else ip ++ "/32"

/-- The `for (const location of locations)` loop body: skip non-default
locations under `DefaultOnly` scope, skip locations without a (truthy)
id, update the rest. -/
def gatewayLoop (accountId cidr : String) (updateType : GateUpdateType) :
    List GatewayLocation → List GatewayUpdateCall
  | [] => []
  | location :: rest =>
    if jsTruthyBool location.client_default = false ∧ updateType = .DefaultOnly then
      gatewayLoop accountId cidr updateType rest
    else if jsTruthyStr location.id then
      ⟨location.id.getD "", accountId, locationName location.name,
       location.client_default, [cidr]⟩ :: gatewayLoop accountId cidr updateType rest
    else
      gatewayLoop accountId cidr updateType rest

/-- Outcome of `updateGatewayLocation`: the update calls it issued and
its return value or thrown error. -/
structure GatewayStepResult where
  updates : List GatewayUpdateCall
  outcome : Except JsError HttpResponse
  deriving DecidableEq, Repr

/-- `updateGatewayLocation(cloudflare, accountId, newRecord, updateType)`:
an empty location list is a successful no-op; otherwise each qualifying
location's network list is replaced by the single computed CIDR entry. -/
def updateGatewayLocation (cf : CloudflareEnv) (accountId : String)
    (newRecord : AddressableRecord) (updateType : GateUpdateType) : GatewayStepResult :=
  let locations := cf.gatewayLocations
  if locations.length = 0 then
    ⟨[], .ok successResponse⟩
  else
    ⟨gatewayLoop accountId (networkCIDR newRecord.content) updateType locations,
     .ok successResponse⟩

/-- The observable outcome of one `fetch` invocation: the HTTP response
together with every remote call the worker issued. -/
structure FetchResult where
  response : HttpResponse
  dnsListCalls : List DnsListCall
  dnsUpdates : List DnsUpdateCall
  gatewayUpdates : List GatewayUpdateCall
  deriving DecidableEq, Repr

/-- The exported `fetch(request, env)` handler: validate, require at
least one operation, verify the token is active, require exactly one
zone, then run the requested DNS-record and gateway-location updates in
that order; errors are mapped by the top-level catch. -/
def fetchHandler (request : Request) (env : List (String × String)) (cf : CloudflareEnv) :
    FetchResult :=
  match validateChangeRequest request env with
  | .error e => ⟨errorResponse e, [], [], []⟩
  | .ok v =>
    if v.updateHostIp = false ∧ v.updateGatewayIp = false then
      ⟨errorResponse (.http ⟨400, "No update requested!"⟩), [], [], []⟩
    else if cf.tokenStatus ≠ "active" then
      ⟨errorResponse (.http ⟨401, "This API Token is " ++ cf.tokenStatus⟩), [], [], []⟩
    else if cf.zones.length > 1 then
      ⟨errorResponse (.http ⟨400,
        "More than one zone was found! You must supply an API Token scoped to a single zone."⟩),
       [], [], []⟩
    else
      match cf.zones with
      | [] =>
        ⟨errorResponse (.http ⟨400,
          "No zones found! You must supply an API Token scoped to a single zone."⟩),
         [], [], []⟩
      | zone :: _ =>
        match (if v.updateHostIp then updateDNSRecord cf zone.id v.record
               else ⟨[], [], .ok successResponse⟩ : DnsStepResult) with
        | ⟨listCalls, updates, .error e⟩ => ⟨errorResponse e, listCalls, updates, []⟩
        | ⟨listCalls, updates, .ok _⟩ =>
          if v.updateGatewayIp then
            if jsTruthyStr zone.accountId = false then
              ⟨errorResponse (.http ⟨400, "No account ID found for the zone."⟩),
               listCalls, updates, []⟩
            else
              match updateGatewayLocation cf (zone.accountId.getD "") v.record
                      v.gatewayUpdateType with
              | ⟨gwUpdates, .error e⟩ => ⟨errorResponse e, listCalls, updates, gwUpdates⟩
              | ⟨gwUpdates, .ok _⟩ => ⟨successResponse, listCalls, updates, gwUpdates⟩
          else
            ⟨successResponse, listCalls, updates, []⟩

/-! ### Concrete demonstration inputs

A configured domain `SK` with client key `"abc"` (the Basic payload
`"YWJjOg=="` decodes to `"abc:"`), one zone, one matching DNS record
and one default gateway location. -/

/-- Configuration with the `SK` credential pair set. -/
def demoEnv : List (String × String) :=
  [("SK_CLIENT_API_KEY", "abc"), ("SK_CLOUDFLARE_API_TOKEN", "cf-token")]

/-- A well-formed update request for `home.example.com`. -/
def demoRequest : Request :=
  { params := [("domain", "SK"), ("ip", "1.2.3.4"), ("hostname", "home.example.com")],
    headers := [("Authorization", "Basic YWJjOg==")] }

/-- Remote state: active token, one zone with an account, one matching
proxied record with a comment, one default location. -/
def demoCf : CloudflareEnv :=
  { tokenStatus := "active",
    zones := [⟨"zone1", some "acct1"⟩],
    dnsListResult := [⟨some "rec1", "9.9.9.9", some true, some "keep me"⟩],
    gatewayLocations := [⟨some "loc1", some "HQ", some true⟩] }

/-- The validated tuple `validateChangeRequest` produces for
`demoRequest` under `demoEnv`. -/
def demoValidated : ValidatedChange :=
  { cloudflareApiToken := "cf-token",
    updateHostIp := true,
    updateGatewayIp := false,
    gatewayUpdateType := .DefaultOnly,
    record := ⟨"1.2.3.4", some "home.example.com", .A, 1⟩ }

/-- `demoRequest` with a wrong shared secret (payload decodes to
`"WRONG:"`). -/
def wrongSecretRequest : Request :=
  { demoRequest with headers := [("Authorization", "Basic V1JPTkc6")] }

/-- `demoRequest` without the `domain` query parameter. -/
def noDomainRequest : Request :=
  { demoRequest with params := [("ip", "1.2.3.4"), ("hostname", "home.example.com")] }

/-- Helper: whenever `validateChangeRequest` succeeds, the type of the
constructed record is `A` exactly when the effective IP contains a dot,
`AAAA` otherwise. -/
theorem validate_ok_record_type (req : Request) (env : List (String × String))
    (v : ValidatedChange) (h : validateChangeRequest req env = .ok v) :
    v.record.type = (if jsIncludes v.record.content '.' then RecordType.A else RecordType.AAAA) := by
  unfold validateChangeRequest at h
  repeat' split at h
  all_goals cases h
  all_goals simp_all

/-- Claim C1: for every valid request, the constructed address record's type
is `A` when the effective ip string contains `'.'`, and `AAAA` when it
contains `':'` and no `'.'`. -/
theorem record_type_classification (req : Request) (env : List (String × String))
    (v : ValidatedChange) (h : validateChangeRequest req env = .ok v) :
    (jsIncludes v.record.content '.' = true → v.record.type = RecordType.A) ∧
    (jsIncludes v.record.content ':' = true → jsIncludes v.record.content '.' = false →
      v.record.type = RecordType.AAAA) := by
  have ht := validate_ok_record_type req env v h
  constructor
  · intro hdot
    rw [ht, hdot]
    rfl
  · intro _ hnodot
    rw [ht, hnodot]
    rfl

/-- Witness for claim C1: the demonstration request validates, and the record
type classification holds for its record. -/
theorem record_type_classification_witness :
    validateChangeRequest demoRequest demoEnv = .ok demoValidated ∧
    ((jsIncludes demoValidated.record.content '.' = true →
        demoValidated.record.type = RecordType.A) ∧
     (jsIncludes demoValidated.record.content ':' = true →
        jsIncludes demoValidated.record.content '.' = false →
        demoValidated.record.type = RecordType.AAAA)) :=
  ⟨by decide, record_type_classification demoRequest demoEnv demoValidated (by decide)⟩

/-- Claim C2: on the single matching existing record, the issued update
sets `content` to the new IP, passes the existing record's `proxied`
flag (defaulted to `false` when unset) and its `comment` verbatim, and
reissues the requested name and type unchanged. -/
theorem dns_update_preserves_proxied_comment (cf : CloudflareEnv) (zoneId : String)
    (newRecord : AddressableRecord) (r : DnsRecord) (rid : String)
    (hlist : cf.dnsListResult = [r]) (hid : r.id = some rid) :
    (updateDNSRecord cf zoneId newRecord).updates =
      [⟨rid, newRecord.content, zoneId, newRecord.name, newRecord.type,
        r.proxied.getD false, r.comment⟩] ∧
    (updateDNSRecord cf zoneId newRecord).outcome = .ok successResponse := by
  simp [updateDNSRecord, hlist, hid]

/-- Witness for claim C2: the demonstration record (proxied, with a
comment) is the single match, and the issued update carries its
`proxied` flag and comment with the new content. -/
theorem dns_update_preserves_proxied_comment_witness :
    (updateDNSRecord demoCf "zone1" demoValidated.record).updates =
      [⟨"rec1", "1.2.3.4", "zone1", some "home.example.com", RecordType.A,
        true, some "keep me"⟩] ∧
    (updateDNSRecord demoCf "zone1" demoValidated.record).outcome = .ok successResponse :=
  dns_update_preserves_proxied_comment demoCf "zone1" demoValidated.record
    ⟨some "rec1", "9.9.9.9", some true, some "keep me"⟩ "rec1" (by decide) (by decide)

/-- Claim C3: the record listing is filtered by the requested name and
type; zero matches fail with a 400 "must be created manually" error and
more than one match fails with a 400 ambiguity error, and in neither
case is any update issued. -/
theorem dns_zero_or_multi_no_update (cf : CloudflareEnv) (zoneId : String)
    (newRecord : AddressableRecord)
    (h : cf.dnsListResult = [] ∨ 1 < cf.dnsListResult.length) :
    (updateDNSRecord cf zoneId newRecord).listCalls =
      [⟨zoneId, newRecord.name, newRecord.type⟩] ∧
    (updateDNSRecord cf zoneId newRecord).updates = [] ∧
    (cf.dnsListResult = [] →
      (updateDNSRecord cf zoneId newRecord).outcome =
        .error (.http ⟨400, "No record found! You must first manually create the record."⟩)) ∧
    (1 < cf.dnsListResult.length →
      (updateDNSRecord cf zoneId newRecord).outcome =
        .error (.http ⟨400, "More than one matching record found!"⟩)) := by
  rcases h with h | h
  · refine ⟨by simp [updateDNSRecord, h], by simp [updateDNSRecord, h], fun _ => ?_, fun hlen => ?_⟩
    · simp [updateDNSRecord, h]
    · rw [h] at hlen
      simp at hlen
  · have hgt : cf.dnsListResult.length > 1 := h
    refine ⟨?_, ?_, fun hnil => ?_, fun _ => ?_⟩
    · simp [updateDNSRecord, hgt]
    · simp [updateDNSRecord, hgt]
    · rw [hnil] at hgt
      simp at hgt
    · simp [updateDNSRecord, hgt]

/-- Remote state with two matching records for the same name and type. -/
def twoRecordCf : CloudflareEnv :=
  { demoCf with dnsListResult :=
      [⟨some "rec1", "9.9.9.9", some true, some "keep me"⟩,
       ⟨some "rec2", "8.8.8.8", none, none⟩] }

/-- Witness for claim C3: with two matching records the worker issues
no update and fails with the 400 ambiguity error. -/
theorem dns_zero_or_multi_no_update_witness :
    (updateDNSRecord twoRecordCf "zone1" demoValidated.record).listCalls =
      [⟨"zone1", some "home.example.com", RecordType.A⟩] ∧
    (updateDNSRecord twoRecordCf "zone1" demoValidated.record).updates = [] ∧
    (updateDNSRecord twoRecordCf "zone1" demoValidated.record).outcome =
      .error (.http ⟨400, "More than one matching record found!"⟩) :=
  ⟨(dns_zero_or_multi_no_update twoRecordCf "zone1" demoValidated.record
      (Or.inr (by decide))).1,
   (dns_zero_or_multi_no_update twoRecordCf "zone1" demoValidated.record
      (Or.inr (by decide))).2.1,
   (dns_zero_or_multi_no_update twoRecordCf "zone1" demoValidated.record
      (Or.inr (by decide))).2.2.2 (by decide)⟩

/-- Helper: the gateway loop issues exactly one update per location
that qualifies under the scope and has a truthy id, in order. -/
theorem gatewayLoop_filter_map (accountId cidr : String) (updateType : GateUpdateType)
    (locs : List GatewayLocation) :
    gatewayLoop accountId cidr updateType locs =
      (locs.filter (fun loc =>
        (decide (updateType = GateUpdateType.All) || jsTruthyBool loc.client_default) &&
        jsTruthyStr loc.id)).map
        (fun loc => ⟨loc.id.getD "", accountId, locationName loc.name,
                     loc.client_default, [cidr]⟩) := by
  induction locs with
  | nil => rfl
  | cons loc rest ih =>
    cases updateType <;>
      by_cases h1 : jsTruthyBool loc.client_default = true <;>
      by_cases h2 : jsTruthyStr loc.id = true <;>
      simp [gatewayLoop, h1, h2, ih, List.filter_cons]

/-- Remote state with a single default gateway location whose display
name is the empty string. -/
def emptyNameLocCf : CloudflareEnv :=
  { demoCf with gatewayLocations := [⟨some "loc1", some "", some true⟩] }

/-- Counterexample to claim C9 as stated: for a default location whose
stored name is the empty string, the issued update does not reissue the
location's name — it carries the substitute `"Default Location"`. -/
theorem gateway_name_not_reissued_verbatim :
    emptyNameLocCf.gatewayLocations.map (fun loc => loc.name) = [some ""] ∧
    ((updateGatewayLocation emptyNameLocCf "acct1" demoValidated.record
        GateUpdateType.DefaultOnly).updates.map (fun u => u.name)) = ["Default Location"] ∧
    ("Default Location" : String) ≠ "" := by decide

/-- Claim C9 (amended): with scope default-only exactly the locations
with a true default flag and a non-empty id receive an update, with
scope all every location with a non-empty id does; each issued update
replaces the networks with the single CIDR `ip/128` when the ip
contains `':'` and `ip/32` otherwise, reissuing the location's default
flag, and its name with `"Default Location"` substituted when the
stored name is empty or unset; an empty location list yields success
with no update issued. -/
theorem gateway_scope_and_cidr (cf : CloudflareEnv) (accountId : String)
    (rec : AddressableRecord) (updateType : GateUpdateType) :
    (updateGatewayLocation cf accountId rec updateType).updates =
      (cf.gatewayLocations.filter (fun loc =>
          (decide (updateType = GateUpdateType.All) || jsTruthyBool loc.client_default) &&
          jsTruthyStr loc.id)).map
        (fun loc =>
          ⟨loc.id.getD "", accountId, locationName loc.name, loc.client_default,
           [if jsIncludes rec.content ':' then rec.content ++ "/128"
            else rec.content ++ "/32"]⟩) ∧
    (updateGatewayLocation cf accountId rec updateType).outcome = .ok successResponse := by
  by_cases h : cf.gatewayLocations.length = 0
  · have h0 : cf.gatewayLocations = [] := List.length_eq_zero.mp h
    simp [updateGatewayLocation, h, h0]
  · simp [updateGatewayLocation, h, gatewayLoop_filter_map, networkCIDR]

/-- Claim C4: for an authenticated request asking for at least one
operation, when the zone listing returns zero zones or more than one
zone the response is a 400 whose body names the zone-count problem, and
no DNS record update and no gateway location update is performed. -/
theorem zone_count_failure (req : Request) (env : List (String × String))
    (cf : CloudflareEnv) (v : ValidatedChange)
    (hv : validateChangeRequest req env = .ok v)
    (hops : v.updateHostIp = true ∨ v.updateGatewayIp = true)
    (htok : cf.tokenStatus = "active")
    (hz : cf.zones = [] ∨ 1 < cf.zones.length) :
    (fetchHandler req env cf).response.status = 400 ∧
    ((fetchHandler req env cf).response.body =
        "No zones found! You must supply an API Token scoped to a single zone." ∨
     (fetchHandler req env cf).response.body =
        "More than one zone was found! You must supply an API Token scoped to a single zone.") ∧
    (fetchHandler req env cf).dnsUpdates = [] ∧
    (fetchHandler req env cf).gatewayUpdates = [] := by
  have hops' : ¬(v.updateHostIp = false ∧ v.updateGatewayIp = false) := by
    rcases hops with h | h <;> simp [h]
  unfold fetchHandler
  rw [hv]
  rcases hz with hz | hz
  · simp [hops', htok, hz, errorResponse]
  · have hgt : cf.zones.length > 1 := hz
    simp [hops', htok, hgt, errorResponse]

/-- Remote state in which the credential sees no zone at all. -/
def noZoneCf : CloudflareEnv := { demoCf with zones := [] }

/-- Witness for claim C4: with zero zones the demonstration request
gets the 400 zone-count response and no remote mutation is issued. -/
theorem zone_count_failure_witness :
    (fetchHandler demoRequest demoEnv noZoneCf).response.status = 400 ∧
    ((fetchHandler demoRequest demoEnv noZoneCf).response.body =
        "No zones found! You must supply an API Token scoped to a single zone." ∨
     (fetchHandler demoRequest demoEnv noZoneCf).response.body =
        "More than one zone was found! You must supply an API Token scoped to a single zone.") ∧
    (fetchHandler demoRequest demoEnv noZoneCf).dnsUpdates = [] ∧
    (fetchHandler demoRequest demoEnv noZoneCf).gatewayUpdates = [] :=
  zone_count_failure demoRequest demoEnv noZoneCf demoValidated (by decide)
    (Or.inl (by decide)) (by decide) (Or.inl (by decide))

/-- Claim C10: when both the hostname update and the gateway update are
requested and the single zone carries no (truthy) account identifier,
the DNS record update is issued and only afterwards does the handler
fail with the 400 "No account ID found for the zone." response; the DNS
mutation is not rolled back. -/
theorem dns_update_survives_missing_account (req : Request) (env : List (String × String))
    (cf : CloudflareEnv) (v : ValidatedChange) (zone : Zone) (r : DnsRecord) (rid : String)
    (hv : validateChangeRequest req env = .ok v)
    (hhost : v.updateHostIp = true)
    (hgw : v.updateGatewayIp = true)
    (htok : cf.tokenStatus = "active")
    (hz : cf.zones = [zone])
    (hacct : jsTruthyStr zone.accountId = false)
    (hlist : cf.dnsListResult = [r])
    (hid : r.id = some rid) :
    (fetchHandler req env cf).response = ⟨"No account ID found for the zone.", 400⟩ ∧
    (fetchHandler req env cf).dnsUpdates =
      [⟨rid, v.record.content, zone.id, v.record.name, v.record.type,
        r.proxied.getD false, r.comment⟩] ∧
    (fetchHandler req env cf).gatewayUpdates = [] := by
  unfold fetchHandler
  rw [hv]
  simp [hhost, hgw, htok, hz, hacct, updateDNSRecord, hlist, hid, errorResponse]

/-- The demonstration request additionally asking for a gateway update. -/
def hostAndGatewayRequest : Request :=
  { demoRequest with
    params := [("domain", "SK"), ("ip", "1.2.3.4"), ("hostname", "home.example.com"),
               ("gateway", "Default")] }

/-- The validated tuple for `hostAndGatewayRequest` under `demoEnv`. -/
def hostAndGatewayValidated : ValidatedChange :=
  { demoValidated with updateGatewayIp := true }

/-- Remote state whose single zone has no account identifier. -/
def noAccountCf : CloudflareEnv := { demoCf with zones := [⟨"zone1", none⟩] }

/-- Witness for claim C10: on the combined request against the
account-less zone, the DNS update is issued and the response is the
400 missing-account error. -/
theorem dns_update_survives_missing_account_witness :
    (fetchHandler hostAndGatewayRequest demoEnv noAccountCf).response =
      ⟨"No account ID found for the zone.", 400⟩ ∧
    (fetchHandler hostAndGatewayRequest demoEnv noAccountCf).dnsUpdates =
      [⟨"rec1", "1.2.3.4", "zone1", some "home.example.com", RecordType.A,
        true, some "keep me"⟩] ∧
    (fetchHandler hostAndGatewayRequest demoEnv noAccountCf).gatewayUpdates = [] :=
  dns_update_survives_missing_account hostAndGatewayRequest demoEnv noAccountCf
    hostAndGatewayValidated ⟨"zone1", none⟩
    ⟨some "rec1", "9.9.9.9", some true, some "keep me"⟩ "rec1"
    (by decide) (by decide) (by decide) (by decide) (by decide) (by decide) (by decide)
    (by decide)

/-- Counterexample to claim C5 as stated: a request without the
`domain` query parameter fails with status 400 (a "required parameter"
error), not with the claimed 401 "not configured" error. -/
theorem domain_absent_is_400_not_401 :
    (fetchHandler noDomainRequest demoEnv demoCf).response.status = 400 ∧
    (fetchHandler noDomainRequest demoEnv demoCf).response.status ≠ 401 ∧
    (fetchHandler noDomainRequest demoEnv demoCf).response.body =
      "The \"domain\" parameter is required and cannot be empty." := by decide

/-- Claim C5 (amended): an absent `domain` parameter fails with a 400
"parameter required" error; a present `domain` with no matching
configured credential pair fails with the 401 "not configured" error
(unauthorized, not not-found). -/
theorem domain_selection_errors (req : Request) (env : List (String × String))
    (cf : CloudflareEnv) :
    (paramsGet req.params "domain" = none →
      (fetchHandler req env cf).response =
        ⟨"The \"domain\" parameter is required and cannot be empty.", 400⟩) ∧
    (∀ d, paramsGet req.params "domain" = some d →
      ((envGet env (d ++ "_" ++ "CLIENT_API_KEY")).isSome = false ∨
       (envGet env (d ++ "_" ++ "CLOUDFLARE_API_TOKEN")).isSome = false) →
      (fetchHandler req env cf).response =
        ⟨"Domain '" ++ d ++ "' not configured for updates.", 401⟩) := by
  constructor
  · intro h
    unfold fetchHandler validateChangeRequest
    rw [h]
    rfl
  · intro d hd hcfg
    unfold fetchHandler validateChangeRequest
    rw [hd]
    rcases hcfg with h | h
    · simp [h, errorResponse]
    · by_cases h1 : (envGet env (d ++ "_" ++ "CLIENT_API_KEY")).isSome = false
      · simp [h1, errorResponse]
      · simp [h1, h, errorResponse]

/-- Witness for claim C5 (amended): the missing-parameter case on
`noDomainRequest` and the unconfigured case on an empty environment. -/
theorem domain_selection_errors_witness :
    (fetchHandler noDomainRequest demoEnv demoCf).response =
      ⟨"The \"domain\" parameter is required and cannot be empty.", 400⟩ ∧
    (fetchHandler demoRequest [] demoCf).response =
      ⟨"Domain 'SK' not configured for updates.", 401⟩ :=
  ⟨(domain_selection_errors noDomainRequest demoEnv demoCf).1 (by decide),
   (domain_selection_errors demoRequest [] demoCf).2 "SK" (by decide) (Or.inl (by decide))⟩

/-- Counterexample to claim C6 as stated: with the same wrong-secret
request, both responses carry status 401, but the response bodies
differ between a configured and an unconfigured domain, so the
observable response does reveal whether the credential pair exists. -/
theorem wrong_secret_observable_difference :
    (fetchHandler wrongSecretRequest demoEnv demoCf).response.status = 401 ∧
    (fetchHandler wrongSecretRequest [] demoCf).response.status = 401 ∧
    (fetchHandler wrongSecretRequest demoEnv demoCf).response ≠
      (fetchHandler wrongSecretRequest [] demoCf).response := by decide

/-- Claim C6 (amended): a request presenting a wrong shared secret is
always answered with status 401, whether or not the selected domain's
credential pair is configured; the response bodies, however, differ
between the two cases. -/
theorem wrong_secret_always_401 (req : Request) (env : List (String × String))
    (cf : CloudflareEnv) (d : String)
    (hd : paramsGet req.params "domain" = some d)
    (hcase :
      (envGet env (d ++ "_" ++ "CLIENT_API_KEY")).isSome = false ∨
      (envGet env (d ++ "_" ++ "CLOUDFLARE_API_TOKEN")).isSome = false ∨
      (∃ decoded,
        atob (authPayload ((headersGet req.headers "Authorization").getD "")) = some decoded ∧
        hasCtrlChar decoded = false ∧
        extractApiKey decoded ≠ (envGet env (d ++ "_" ++ "CLIENT_API_KEY")).getD "")) :
    (fetchHandler req env cf).response.status = 401 := by
  unfold fetchHandler validateChangeRequest
  rw [hd]
  rcases hcase with h | h | ⟨decoded, hdec, hctrl, hne⟩
  · simp [h, errorResponse]
  · by_cases h1 : (envGet env (d ++ "_" ++ "CLIENT_API_KEY")).isSome = false
    · simp [h1, errorResponse]
    · simp [h1, h, errorResponse]
  · by_cases h1 : (envGet env (d ++ "_" ++ "CLIENT_API_KEY")).isSome = false
    · simp [h1, errorResponse]
    · by_cases h2 : (envGet env (d ++ "_" ++ "CLOUDFLARE_API_TOKEN")).isSome = false
      · simp [h1, h2, errorResponse]
      · by_cases h3 : (headersGet req.headers "Authorization").getD "" = ""
        · rw [h3] at hdec
          rw [show atob (authPayload "") = none from by decide] at hdec
          cases hdec
        · simp [h1, h2, h3, hdec, hctrl, hne, errorResponse]

/-- Witness for claim C6 (amended): the wrong-secret request against
the configured demonstration environment is answered 401. -/
theorem wrong_secret_always_401_witness :
    (fetchHandler wrongSecretRequest demoEnv demoCf).response.status = 401 :=
  wrong_secret_always_401 wrongSecretRequest demoEnv demoCf "SK" (by decide)
    (Or.inr (Or.inr ⟨"WRONG:", by decide, by decide, by decide⟩))

/-- Claim C7: whenever the decoded Basic-auth payload contains a
control character (0x00–0x1F or 0x7F), authentication fails with the
401 "Invalid API key or token." response, regardless of what stands
before the first colon. -/
theorem ctrl_char_payload_401 (req : Request) (env : List (String × String))
    (cf : CloudflareEnv) (d : String) (decoded : String)
    (hd : paramsGet req.params "domain" = some d)
    (hck : (envGet env (d ++ "_" ++ "CLIENT_API_KEY")).isSome = true)
    (htk : (envGet env (d ++ "_" ++ "CLOUDFLARE_API_TOKEN")).isSome = true)
    (hdec : atob (authPayload ((headersGet req.headers "Authorization").getD "")) = some decoded)
    (hctrl : hasCtrlChar decoded = true) :
    (fetchHandler req env cf).response = ⟨"Invalid API key or token.", 401⟩ := by
  unfold fetchHandler validateChangeRequest
  rw [hd]
  by_cases h3 : (headersGet req.headers "Authorization").getD "" = ""
  · rw [h3] at hdec
    rw [show atob (authPayload "") = none from by decide] at hdec
    cases hdec
  · simp [hck, htk, h3, hdec, hctrl, errorResponse]

/-- `demoRequest` whose Basic payload decodes to `"abc:\x00"`: the
portion before the colon equals the configured secret, but the payload
carries a NUL byte. -/
def ctrlCharRequest : Request :=
  { demoRequest with headers := [("Authorization", "Basic YWJjOgA=")] }

/-- Witness for claim C7: the NUL-carrying payload is rejected with 401
even though the portion before the colon matches the configured
secret. -/
theorem ctrl_char_payload_401_witness :
    (fetchHandler ctrlCharRequest demoEnv demoCf).response =
      ⟨"Invalid API key or token.", 401⟩ :=
  ctrl_char_payload_401 ctrlCharRequest demoEnv demoCf "SK"
    ("abc:" ++ String.mk [Char.ofNat 0])
    (by decide) (by decide) (by decide) (by decide) (by decide)

/-- Claim C8: for an otherwise authenticated request whose effective
`ip` parameter is the literal `auto`, a present `CF-Connecting-IP`
header makes validation succeed with exactly that header's value as the
effective IP, while an absent header makes the request fail with the
500 cannot-determine-IP error. -/
theorem ip_auto_resolution (req : Request) (env : List (String × String))
    (cf : CloudflareEnv) (d ck decoded : String)
    (hd : paramsGet req.params "domain" = some d)
    (hck : envGet env (d ++ "_" ++ "CLIENT_API_KEY") = some ck)
    (htk : (envGet env (d ++ "_" ++ "CLOUDFLARE_API_TOKEN")).isSome = true)
    (hdec : atob (authPayload ((headersGet req.headers "Authorization").getD "")) = some decoded)
    (hctrl : hasCtrlChar decoded = false)
    (hkey : extractApiKey decoded = ck)
    (hne : ck ≠ "")
    (hip : ipParam req.params = some "auto") :
    (∀ clientIp, headersGet req.headers "CF-Connecting-IP" = some clientIp →
      ∃ v, validateChangeRequest req env = .ok v ∧ v.record.content = clientIp) ∧
    (headersGet req.headers "CF-Connecting-IP" = none →
      validateChangeRequest req env =
        .error (.http ⟨500,
          "Request asked for ip=auto but client IP address cannot be determined."⟩) ∧
      (fetchHandler req env cf).response.status = 500) := by
  have h3 : ¬((headersGet req.headers "Authorization").getD "" = "") := by
    intro h3
    rw [h3] at hdec
    rw [show atob (authPayload "") = none from by decide] at hdec
    cases hdec
  constructor
  · intro clientIp hcip
    have hval : validateChangeRequest req env = .ok
        { cloudflareApiToken := (envGet env (d ++ "_" ++ "CLOUDFLARE_API_TOKEN")).getD "",
          updateHostIp := paramsHas req.params "hostname",
          updateGatewayIp := paramsHas req.params "gateway",
          gatewayUpdateType :=
            if paramsGet req.params "gateway" = some "All" then .All else .DefaultOnly,
          record := { content := clientIp, name := paramsGet req.params "hostname",
                      type := if jsIncludes clientIp '.' then .A else .AAAA,
                      ttl := 1 } } := by
      unfold validateChangeRequest
      rw [hd]
      simp [hck, htk, h3, hdec, hctrl, hkey, hne, hip, hcip]
    exact ⟨_, hval, rfl⟩
  · intro hnone
    have hval : validateChangeRequest req env =
        .error (.http ⟨500,
          "Request asked for ip=auto but client IP address cannot be determined."⟩) := by
      unfold validateChangeRequest
      rw [hd]
      simp [hck, htk, h3, hdec, hctrl, hkey, hne, hip, hnone]
    refine ⟨hval, ?_⟩
    unfold fetchHandler
    rw [hval]
    rfl

/-- The demonstration request with `ip=auto` and the trusted caller-IP
header present. -/
def autoIpRequest : Request :=
  { params := [("domain", "SK"), ("ip", "auto"), ("hostname", "home.example.com")],
    headers := [("Authorization", "Basic YWJjOg=="), ("CF-Connecting-IP", "203.0.113.9")] }

/-- The demonstration request with `ip=auto` but no caller-IP header. -/
def autoIpNoHeaderRequest : Request :=
  { params := [("domain", "SK"), ("ip", "auto"), ("hostname", "home.example.com")],
    headers := [("Authorization", "Basic YWJjOg==")] }

/-- Witness for claim C8: with the header present the effective IP is
the header value; without it validation fails with the 500 error. -/
theorem ip_auto_resolution_witness :
    (∃ v, validateChangeRequest autoIpRequest demoEnv = .ok v ∧
       v.record.content = "203.0.113.9") ∧
    (validateChangeRequest autoIpNoHeaderRequest demoEnv =
       .error (.http ⟨500,
         "Request asked for ip=auto but client IP address cannot be determined."⟩) ∧
     (fetchHandler autoIpNoHeaderRequest demoEnv demoCf).response.status = 500) :=
  ⟨(ip_auto_resolution autoIpRequest demoEnv demoCf "SK" "abc" "abc:"
      (by decide) (by decide) (by decide) (by decide) (by decide) (by decide)
      (by decide) (by decide)).1 "203.0.113.9" (by decide),
   (ip_auto_resolution autoIpNoHeaderRequest demoEnv demoCf "SK" "abc" "abc:"
      (by decide) (by decide) (by decide) (by decide) (by decide) (by decide)
      (by decide) (by decide)).2 (by decide)⟩

end UnifiDdns
